import Mathlib

/-!
Verification development for the Meshcore Signal Heatmap service
(meshcore_heatmap: api.py, cli.py, db.py, heatmap.py, models.py).

Shallow embedding conventions:
* SQL / Python floats are modelled as rationals; every quantity the
  specification reasons about (averages of exactly representable inputs,
  coordinate bounds, filter cutoffs) is exact arithmetic.
* Timestamps are rationals measured in hours, so the lookback cutoff
  `datetime.utcnow() - timedelta(hours=h)` becomes `now - h`.
* The sample store (table ping_samples) is a list of rows in insertion
  order; the SQL GROUP BY over (latitude, longitude) is modelled by
  grouping keys in order of first appearance.
* Fallible endpoints return Except; file writes performed by the
  renderer are abstracted into the returned value (an error means the
  exception was raised before any write happened).
-/

deriving instance DecidableEq for Except

namespace MeshcoreHeatmap

/-- One row of the ping_samples table (db.py, class PingSample).
created_at is non-optional: every insertion path fills it (the API uses
the payload timestamp or utcnow, the column default is utcnow). -/
structure PingSample where
  id : Nat
  created_at : ℚ
  origin_node_id : String
  target_node_id : String
  latitude : Option ℚ
  longitude : Option ℚ
  altitude_m : Option ℚ
  rssi_dbm : Option ℚ
  snr_db : Option ℚ
  round_trip_ms : Option ℚ
  hardware_model : Option String
  firmware_version : Option String
  antenna_model : Option String
  antenna_gain_dbi : Option ℚ
  antenna_polarization : Option String
  tx_power_dbm : Option ℚ
  frequency_mhz : Option ℚ
  channel_id : Option String
  region : Option String
deriving DecidableEq, Repr

/-- Raw ingestion payload before pydantic validation (models.py,
PingSampleIn): the two node ids may be absent, everything else is
optional by schema. -/
structure PingSampleInRaw where
  origin_node_id : Option String
  target_node_id : Option String
  timestamp : Option ℚ
  latitude : Option ℚ
  longitude : Option ℚ
  altitude_m : Option ℚ
  rssi_dbm : Option ℚ
  snr_db : Option ℚ
  round_trip_ms : Option ℚ
  hardware_model : Option String
  firmware_version : Option String
  antenna_model : Option String
  antenna_gain_dbi : Option ℚ
  antenna_polarization : Option String
  tx_power_dbm : Option ℚ
  frequency_mhz : Option ℚ
  channel_id : Option String
  region : Option String
deriving DecidableEq, Repr

/-- Validated ingestion payload (models.py, PingSampleIn after pydantic
validation): node ids are present strings, coordinates are in bounds
when present. -/
structure PingSampleIn where
  origin_node_id : String
  target_node_id : String
  timestamp : Option ℚ
  latitude : Option ℚ
  longitude : Option ℚ
  altitude_m : Option ℚ
  rssi_dbm : Option ℚ
  snr_db : Option ℚ
  round_trip_ms : Option ℚ
  hardware_model : Option String
  firmware_version : Option String
  antenna_model : Option String
  antenna_gain_dbi : Option ℚ
  antenna_polarization : Option String
  tx_power_dbm : Option ℚ
  frequency_mhz : Option ℚ
  channel_id : Option String
  region : Option String
deriving DecidableEq, Repr

/-- Pydantic validation of PingSampleIn (models.py lines 11-35):
origin_node_id and target_node_id are required fields (Field(...)), and
latitude has ge=-90 le=90, longitude ge=-180 le=180.  No constraint
requires the node id strings to be non-empty. -/
def validatePingSampleIn (raw : PingSampleInRaw) : Option PingSampleIn :=
  match raw.origin_node_id, raw.target_node_id with
  | some o, some t =>
    if (match raw.latitude with
        | some la => decide (-90 ≤ la) && decide (la ≤ 90)
        | none => true)
       && (match raw.longitude with
        | some lo => decide (-180 ≤ lo) && decide (lo ≤ 180)
        | none => true) then
      some { origin_node_id := o, target_node_id := t,
             timestamp := raw.timestamp,
             latitude := raw.latitude, longitude := raw.longitude,
             altitude_m := raw.altitude_m,
             rssi_dbm := raw.rssi_dbm, snr_db := raw.snr_db,
             round_trip_ms := raw.round_trip_ms,
             hardware_model := raw.hardware_model,
             firmware_version := raw.firmware_version,
             antenna_model := raw.antenna_model,
             antenna_gain_dbi := raw.antenna_gain_dbi,
             antenna_polarization := raw.antenna_polarization,
             tx_power_dbm := raw.tx_power_dbm,
             frequency_mhz := raw.frequency_mhz,
             channel_id := raw.channel_id, region := raw.region }
    else none
  | _, _ => none

/-- Build the ORM record from a validated payload (api.py lines 59-78):
created_at is the payload timestamp or, when absent, the current UTC
time.  The surrogate id is assigned by the database on insert. -/
def toRecord (id : Nat) (now : ℚ) (s : PingSampleIn) : PingSample :=
  { id := id, created_at := s.timestamp.getD now,
    origin_node_id := s.origin_node_id, target_node_id := s.target_node_id,
    latitude := s.latitude, longitude := s.longitude,
    altitude_m := s.altitude_m,
    rssi_dbm := s.rssi_dbm, snr_db := s.snr_db,
    round_trip_ms := s.round_trip_ms,
    hardware_model := s.hardware_model,
    firmware_version := s.firmware_version,
    antenna_model := s.antenna_model,
    antenna_gain_dbi := s.antenna_gain_dbi,
    antenna_polarization := s.antenna_polarization,
    tx_power_dbm := s.tx_power_dbm, frequency_mhz := s.frequency_mhz,
    channel_id := s.channel_id, region := s.region }

/-- POST /ping-samples (api.py, create_ping_sample): the record is always
inserted; returns the new store and the stored record. -/
def create_ping_sample (now : ℚ) (store : List PingSample) (s : PingSampleIn) :
    List PingSample × PingSample :=
  let r := toRecord (store.length + 1) now s
  (store ++ [r], r)

/-- Errors surfaced by the HTTP API: requestValidation models the
framework 422 rejection of invalid query or body parameters, which runs
before the handler body; httpException models an explicit HTTPException
raised inside a handler. -/
inductive HttpErr where
  | requestValidation : HttpErr
  | httpException : Nat → String → HttpErr
deriving DecidableEq, Repr

/-- POST /ping-samples/bulk (api.py lines 91-128): an empty list raises
HTTPException 400 before any session.add; the first component is the
store after the request (unchanged on error, since the transaction never
receives a write), the second the response. -/
def create_ping_samples (now : ℚ) (store : List PingSample)
    (samples : List PingSampleIn) :
    List PingSample × Except HttpErr (List PingSample) :=
  if samples.isEmpty then
    (store, .error (.httpException 400 "No samples provided."))
  else
    let recs := samples.enum.map (fun p => toRecord (store.length + 1 + p.1) now p.2)
    (store ++ recs, .ok recs)

/-- Names of the mapped columns of the PingSample ORM class (db.py lines
45-68).  These are the class attributes determined by this repository;
the `getattr(PingSample, metric, None)` guards succeed at least on them
(and also on ORM and object machinery attributes the repository does not
determine, see attrsComplete below). -/
def pingSampleColumns : List String :=
  ["id", "created_at", "origin_node_id", "target_node_id",
   "latitude", "longitude", "altitude_m",
   "rssi_dbm", "snr_db", "round_trip_ms",
   "hardware_model", "firmware_version", "antenna_model",
   "antenna_gain_dbi", "antenna_polarization",
   "tx_power_dbm", "frequency_mhz", "channel_id", "region"]

/-- Value of a named column in a row, as seen by SQL AVG.  Numeric and
datetime columns give their (rational) value; text columns are subject
to numeric coercion by SQLite, which maps the non-numeric identifier
strings stored by this system to 0 (no claim exercises AVG over a text
column). -/
def metricValueOf (metric : String) (s : PingSample) : Option ℚ :=
  match metric with
  | "id" => some (s.id : ℚ)
  | "created_at" => some s.created_at
  | "origin_node_id" => some 0
  | "target_node_id" => some 0
  | "latitude" => s.latitude
  | "longitude" => s.longitude
  | "altitude_m" => s.altitude_m
  | "rssi_dbm" => s.rssi_dbm
  | "snr_db" => s.snr_db
  | "round_trip_ms" => s.round_trip_ms
  | "hardware_model" => s.hardware_model.map (fun _ => 0)
  | "firmware_version" => s.firmware_version.map (fun _ => 0)
  | "antenna_model" => s.antenna_model.map (fun _ => 0)
  | "antenna_gain_dbi" => s.antenna_gain_dbi
  | "antenna_polarization" => s.antenna_polarization.map (fun _ => 0)
  | "tx_power_dbm" => s.tx_power_dbm
  | "frequency_mhz" => s.frequency_mhz
  | "channel_id" => s.channel_id.map (fun _ => 0)
  | "region" => s.region.map (fun _ => 0)
  | _ => none

/-- The metric regex of the HTTP endpoint (api.py line 137):
Query("rssi_dbm", regex of exactly rssi_dbm, snr_db, round_trip_ms). -/
def httpMetricOk (metric : String) : Bool :=
  metric == "rssi_dbm" || metric == "snr_db" || metric == "round_trip_ms"

/-- The hours bounds of the HTTP endpoint (api.py line 138):
Query(None, ge=1, le=168); an absent parameter is always accepted. -/
def hoursParamOk : Option Int → Bool
  | none => true
  | some h => decide (1 ≤ h) && decide (h ≤ 168)

/-- SQL AVG over a group: nulls are ignored; the result is null when
every value is null. -/
def sqlAvg (vs : List (Option ℚ)) : Option ℚ :=
  let xs := vs.filterMap id
  if xs.length = 0 then none else some (xs.sum / (xs.length : ℚ))

/-- SQL MAX over a group of nullable text values: nulls are ignored; null
when every value is null. -/
def sqlMaxStr (vs : List (Option String)) : Option String :=
  (vs.filterMap id).foldl (fun acc s => match acc with
    | none => some s
    | some a => if a < s then some s else some a) none

/-- Python truthiness of an optional integer: None and 0 are falsy.  The
handlers guard every optional filter with `if value:`. -/
def pyTruthyInt : Option Int → Bool
  | none => false
  | some h => h != 0

/-- Python truthiness of an optional string: None and the empty string
are falsy. -/
def pyTruthyStr : Option String → Bool
  | none => false
  | some s => s != ""

/-- Row predicate of the aggregation query (api.py lines 148-171 and the
identical cli.py lines 87-112): latitude and longitude non-null, plus the
conditionally added where clauses for the lookback window and the two
equality filters.  SQL equality with a null column value does not match,
hence the comparison against `some`. -/
def passesFilters (hours : Option Int) (hw ant : Option String) (now : ℚ)
    (s : PingSample) : Bool :=
  s.latitude.isSome && s.longitude.isSome
  && (match hours with
      | some h => if h != 0 then decide (now - (h : ℚ) ≤ s.created_at) else true
      | none => true)
  && (match hw with
      | some m => if m != "" then s.hardware_model == some m else true
      | none => true)
  && (match ant with
      | some a => if a != "" then s.antenna_model == some a else true
      | none => true)

/-- Grouping key of the aggregation: the exact (latitude, longitude)
column values. -/
def rowKey (s : PingSample) : Option ℚ × Option ℚ :=
  (s.latitude, s.longitude)

/-- Append a key to the list of seen keys unless already present. -/
def insertKey (ks : List (Option ℚ × Option ℚ)) (k : Option ℚ × Option ℚ) :
    List (Option ℚ × Option ℚ) :=
  if k ∈ ks then ks else ks ++ [k]

/-- Distinct grouping keys of the filtered rows, in order of first
appearance (the embedding fixes an order for the unordered SQL GROUP BY
output). -/
def keysInOrder (rows : List PingSample) : List (Option ℚ × Option ℚ) :=
  rows.foldl (fun ks s => insertKey ks (rowKey s)) []

/-- One row of the aggregation result: the select list of the query in
api.py lines 148-158 (latitude, longitude, avg metric, count(id), max
created_at, avg antenna gain, avg tx power, max hardware model). -/
structure AggRow where
  latitude : Option ℚ
  longitude : Option ℚ
  metric_value : Option ℚ
  sample_count : Nat
  latest_seen : Option ℚ
  antenna_gain : Option ℚ
  tx_power : Option ℚ
  hardware_model : Option String
deriving DecidableEq, Repr

/-- Aggregates of one group: count(id) counts every row of the group (id
is the non-null primary key); the AVG aggregates ignore nulls. -/
def aggRowFor (metricValue : PingSample → Option ℚ)
    (k : Option ℚ × Option ℚ) (g : List PingSample) : AggRow :=
  { latitude := k.1, longitude := k.2,
    metric_value := sqlAvg (g.map metricValue),
    sample_count := g.length,
    latest_seen := (g.map (fun s => s.created_at)).max?,
    antenna_gain := sqlAvg (g.map (fun s => s.antenna_gain_dbi)),
    tx_power := sqlAvg (g.map (fun s => s.tx_power_dbm)),
    hardware_model := sqlMaxStr (g.map (fun s => s.hardware_model)) }

/-- The filtered row set the aggregation groups over. -/
def filteredRows (hours : Option Int) (hw ant : Option String) (now : ℚ)
    (store : List PingSample) : List PingSample :=
  store.filter (passesFilters hours hw ant now)

/-- The group of filtered rows at one grouping key. -/
def groupRows (rows : List PingSample) (k : Option ℚ × Option ℚ) :
    List PingSample :=
  rows.filter (fun s => rowKey s = k)

/-- Execute the shared aggregation query of api.py get_heatmap and
cli.py export_heatmap: filter, group by exact coordinate pair, aggregate
each group. -/
def runAggQuery (metricValue : PingSample → Option ℚ) (hours : Option Int)
    (hw ant : Option String) (now : ℚ) (store : List PingSample) :
    List AggRow :=
  let rows := filteredRows hours hw ant now store
  (keysInOrder rows).map (fun k => aggRowFor metricValue k (groupRows rows k))

/-- Rendering-side point (models.py, HeatmapPoint). -/
structure HeatmapPoint where
  latitude : ℚ
  longitude : ℚ
  intensity : ℚ
  samples : Nat
  latest_seen : Option ℚ
  antenna_gain_dbi : Option ℚ
  tx_power_dbm : Option ℚ
  hardware_model : Option String
deriving DecidableEq, Repr

/-- Loop body of heatmap.py build_heatmap_points: a row with a null
latitude, longitude or aggregated metric value is skipped;
`int(sample_count or 1)` falls back to 1 on a falsy count. -/
def toHeatmapPoint (r : AggRow) : Option HeatmapPoint :=
  match r.latitude, r.longitude, r.metric_value with
  | some la, some lo, some mv =>
    some { latitude := la, longitude := lo, intensity := mv,
           samples := if r.sample_count = 0 then 1 else r.sample_count,
           latest_seen := r.latest_seen,
           antenna_gain_dbi := r.antenna_gain,
           tx_power_dbm := r.tx_power,
           hardware_model := r.hardware_model }
  | _, _, _ => none

/-- heatmap.py build_heatmap_points: convert the aggregation rows into
heatmap points, skipping rows with null coordinates or metric value. -/
def build_heatmap_points (records : List AggRow) (metric : String) :
    List HeatmapPoint :=
  records.filterMap toHeatmapPoint

/-- GET /heatmap response envelope (models.py, HeatmapResponse). -/
structure HeatmapResponse where
  metric : String
  points : List HeatmapPoint
  min_value : Option ℚ
  max_value : Option ℚ
deriving DecidableEq, Repr

/-- Envelope construction of api.py get_heatmap lines 175-181: an empty
point list gives null min and max, otherwise the minimum and maximum of
the point intensities. -/
def heatmapEnvelope (metric : String) (points : List HeatmapPoint) :
    HeatmapResponse :=
  if points.isEmpty then
    { metric := metric, points := [], min_value := none, max_value := none }
  else
    { metric := metric, points := points,
      min_value := (points.map (fun p => p.intensity)).min?,
      max_value := (points.map (fun p => p.intensity)).max? }

/-- GET /heatmap (api.py get_heatmap).  Framework validation of the query
parameters (metric regex, hours bounds) runs first and yields a 422
rejection; the handler then re-checks the metric through getattr on the
ORM class, runs the aggregation, and builds the envelope.  The getattr
re-check is only ever reached for the three regex-approved metric names,
all of which are mapped columns, so modelling it by column membership
coincides with the attribute lookup on every reachable input (its
400-branch is unreachable in both the source and the model). -/
def get_heatmap (metric : String) (hours : Option Int)
    (hardware_model antenna_model : Option String) (now : ℚ)
    (store : List PingSample) : Except HttpErr HeatmapResponse :=
  if !(httpMetricOk metric && hoursParamOk hours) then
    .error .requestValidation
  else if !(pingSampleColumns.contains metric) then
    .error (.httpException 400 "Unsupported metric.")
  else
    .ok (heatmapEnvelope metric (build_heatmap_points
      (runAggQuery (metricValueOf metric) hours hardware_model antenna_model
        now store) metric))

/-- Rendered folium map (heatmap.py render_heatmap_html): a map centered
at the arithmetic mean of the point coordinates, a weighted heat layer,
and one circle marker per point.  Tile style and layer parameters come
from settings and are not modelled. -/
structure FoliumMap where
  center_lat : ℚ
  center_lon : ℚ
  heat_data : List (ℚ × ℚ × ℚ)
  marker_locations : List (ℚ × ℚ)
deriving DecidableEq, Repr

/-- heatmap.py render_heatmap_html: raises ValueError on an empty point
list before anything is written; otherwise builds the map and returns
the output path it wrote. -/
def render_heatmap_html (points : List HeatmapPoint) (output_path : String)
    (metric : String) : Except String (FoliumMap × String) :=
  if points.isEmpty then
    .error "No heatmap points available to render."
  else
    .ok ({ center_lat := (points.map (fun p => p.latitude)).sum / (points.length : ℚ),
           center_lon := (points.map (fun p => p.longitude)).sum / (points.length : ℚ),
           heat_data := points.map (fun p => (p.latitude, p.longitude, p.intensity)),
           marker_locations := points.map (fun p => (p.latitude, p.longitude)) },
         output_path)

/-- CLI failure: typer.Exit with a code, or an uncaught exception. -/
inductive CliErr where
  | exit : Nat → String → CliErr
  | uncaught : String → CliErr
deriving DecidableEq, Repr

/-- Constraint on an abstract model of the CLI metric guard
`getattr(PingSample, metric, None)`: the lookup succeeds on every mapped
column of the class.  The full attribute namespace of the class is not
determined by this repository (the declarative base and Python object
machinery contribute further names, such as metadata or dunder names),
so the guard is kept abstract and only this source-determined fact is
assumed about it. -/
def attrsComplete (attrFound : String → Bool) : Prop :=
  ∀ c ∈ pingSampleColumns, attrFound c = true

/-- cli.py export_heatmap after the metric guard has passed: the shared
aggregation query, the empty-result exit with code 1, and the render
call. -/
def export_heatmap_run (metric : String) (hours : Option Int)
    (hardware_model antenna_model : Option String) (output_path : String)
    (now : ℚ) (store : List PingSample) : Except CliErr (FoliumMap × String) :=
  let rows := runAggQuery (metricValueOf metric) hours hardware_model
    antenna_model now store
  let points := build_heatmap_points rows metric
  if points.isEmpty then
    .error (.exit 1 "No data available to render heatmap.")
  else
    match render_heatmap_html points output_path metric with
    | .error e => .error (.uncaught e)
    | .ok m => .ok m

/-- cli.py export_heatmap: the only metric validation is
`getattr(PingSample, metric, None)`, modelled by the abstract attribute
predicate attrFound (constrained by attrsComplete); a failed lookup
exits with code 1 before any query runs.  hours, hardware_model and
antenna_model are plain typer options with no bounds. -/
def export_heatmap (attrFound : String → Bool) (metric : String)
    (hours : Option Int) (hardware_model antenna_model : Option String)
    (output_path : String) (now : ℚ) (store : List PingSample) :
    Except CliErr (FoliumMap × String) :=
  if !(attrFound metric) then
    .error (.exit 1 ("Unsupported metric: " ++ metric))
  else
    export_heatmap_run metric hours hardware_model antenna_model
      output_path now store

/-- The group of filtered samples sharing the exact coordinate pair
(lat, lon). -/
def groupAt (hours : Option Int) (hw ant : Option String) (now : ℚ)
    (store : List PingSample) (lat lon : ℚ) : List PingSample :=
  groupRows (filteredRows hours hw ant now store) (some lat, some lon)

/-- The non-null values of a metric across a group of samples (the values
SQL AVG averages). -/
def nonNullValues (metric : String) (g : List PingSample) : List ℚ :=
  (g.map (metricValueOf metric)).filterMap id

/-- The point list produced by the heatmap pipeline for a metric, filter
combination and store. -/
def heatmapPoints (metric : String) (hours : Option Int)
    (hw ant : Option String) (now : ℚ) (store : List PingSample) :
    List HeatmapPoint :=
  build_heatmap_points
    (runAggQuery (metricValueOf metric) hours hw ant now store) metric

/-- Test fixture: a sample with the given id, timestamp, coordinates and
RSSI, every other optional field absent. -/
def mkSample (id : Nat) (t : ℚ) (lat lon rssi : Option ℚ) : PingSample :=
  { id := id, created_at := t, origin_node_id := "n1", target_node_id := "n2",
    latitude := lat, longitude := lon, altitude_m := none,
    rssi_dbm := rssi, snr_db := none, round_trip_ms := none,
    hardware_model := none, firmware_version := none, antenna_model := none,
    antenna_gain_dbi := none, antenna_polarization := none,
    tx_power_dbm := none, frequency_mhz := none,
    channel_id := none, region := none }

/-- Store of the four-sample scenario: three samples at (1, 2) with RSSI
-60, -70, -80 and one sample at (3, 4) with RSSI -50. -/
def scenarioStore : List PingSample :=
  [mkSample 1 0 (some 1) (some 2) (some (-60)),
   mkSample 2 0 (some 1) (some 2) (some (-70)),
   mkSample 3 0 (some 1) (some 2) (some (-80)),
   mkSample 4 0 (some 3) (some 4) (some (-50))]

/-- Test fixture: a validated ingestion payload with a null latitude (and
a present longitude), every metric field absent. -/
def nullCoordSample : PingSampleIn :=
  { origin_node_id := "origin", target_node_id := "target",
    timestamp := some 5, latitude := none, longitude := some 7,
    altitude_m := none, rssi_dbm := none, snr_db := none,
    round_trip_ms := none, hardware_model := none, firmware_version := none,
    antenna_model := none, antenna_gain_dbi := none,
    antenna_polarization := none, tx_power_dbm := none,
    frequency_mhz := none, channel_id := none, region := none }

/-- Test fixture: a raw ingestion payload whose node identifiers are both
present but empty strings. -/
def emptyIdRaw : PingSampleInRaw :=
  { origin_node_id := some "", target_node_id := some "",
    timestamp := none, latitude := none, longitude := none,
    altitude_m := none, rssi_dbm := none, snr_db := none,
    round_trip_ms := none, hardware_model := none, firmware_version := none,
    antenna_model := none, antenna_gain_dbi := none,
    antenna_polarization := none, tx_power_dbm := none,
    frequency_mhz := none, channel_id := none, region := none }

/-- The validated payload the ingestion surface accepts for emptyIdRaw. -/
def parsedEmptyId : PingSampleIn :=
  { origin_node_id := "", target_node_id := "",
    timestamp := none, latitude := none, longitude := none,
    altitude_m := none, rssi_dbm := none, snr_db := none,
    round_trip_ms := none, hardware_model := none, firmware_version := none,
    antenna_model := none, antenna_gain_dbi := none,
    antenna_polarization := none, tx_power_dbm := none,
    frequency_mhz := none, channel_id := none, region := none }

/-- Test fixture: a raw ingestion payload with latitude 100, outside the
[-90, 90] bound. -/
def badLatRaw : PingSampleInRaw :=
  { origin_node_id := some "a", target_node_id := some "b",
    timestamp := none, latitude := some 100, longitude := none,
    altitude_m := none, rssi_dbm := none, snr_db := none,
    round_trip_ms := none, hardware_model := none, firmware_version := none,
    antenna_model := none, antenna_gain_dbi := none,
    antenna_polarization := none, tx_power_dbm := none,
    frequency_mhz := none, channel_id := none, region := none }

/-- Test fixture: a store with one geotagged sample and no RSSI value. -/
def cliLatStore : List PingSample :=
  [mkSample 1 0 (some 5) (some 6) none]

/-- Test fixture: a sample recorded at time 999 (hours), within a
200-hour lookback from time 1000. -/
def lateSample : PingSample :=
  mkSample 1 999 (some 1) (some 2) (some (-60))

/-- Test fixture: an admissible instance of the CLI metric guard (the
mapped columns alone), used to instantiate witnesses. -/
def columnsAttrFound : String → Bool :=
  fun m => pingSampleColumns.contains m

/-- Changing filter parameters without changing the row predicate leaves
the aggregation result unchanged. -/
theorem runAggQuery_congr {hours hours' : Option Int} {hw hw' ant ant' : Option String}
    {now now' : ℚ}
    (h : passesFilters hours hw ant now = passesFilters hours' hw' ant' now')
    (mv : PingSample → Option ℚ) (store : List PingSample) :
    runAggQuery mv hours hw ant now store =
      runAggQuery mv hours' hw' ant' now' store := by
  unfold runAggQuery filteredRows
  rw [h]

/-- An hours value of 0 is falsy, so the handlers skip the time filter
exactly as for an absent value. -/
theorem passesFilters_hours_zero (hw ant : Option String) (now : ℚ) :
    passesFilters (some 0) hw ant now = passesFilters none hw ant now := by
  funext s
  simp [passesFilters]

/-- An empty hardware_model string is falsy, so the handlers skip the
hardware filter exactly as for an absent value. -/
theorem passesFilters_hw_empty (hours : Option Int) (ant : Option String)
    (now : ℚ) : passesFilters hours (some "") ant now =
      passesFilters hours none ant now := by
  funext s
  simp [passesFilters]

/-- An empty antenna_model string is falsy, so the handlers skip the
antenna filter exactly as for an absent value. -/
theorem passesFilters_ant_empty (hours : Option Int) (hw : Option String)
    (now : ℚ) : passesFilters hours hw (some "") now =
      passesFilters hours hw none now := by
  funext s
  simp [passesFilters]

/-- With no hours value the row predicate does not mention the current
time. -/
theorem passesFilters_none_time (hw ant : Option String) (now now' : ℚ) :
    passesFilters none hw ant now = passesFilters none hw ant now' := by
  funext s
  simp [passesFilters]

/-- C1: for a store with exactly three samples at (1.0, 2.0) with
rssi_dbm -60, -70, -80 and one sample at (3.0, 4.0) with rssi_dbm -50,
the heatmap query for rssi_dbm with no filters returns exactly the two
points (1.0, 2.0) with intensity -70.0 and samples 3 and (3.0, 4.0) with
intensity -50.0 and samples 1, with envelope min_value -70.0 and
max_value -50.0. -/
theorem C1_four_sample_scenario :
    get_heatmap "rssi_dbm" none none none 0 scenarioStore =
      .ok { metric := "rssi_dbm",
            points := [{ latitude := 1, longitude := 2, intensity := -70,
                         samples := 3, latest_seen := some 0,
                         antenna_gain_dbi := none, tx_power_dbm := none,
                         hardware_model := none },
                       { latitude := 3, longitude := 4, intensity := -50,
                         samples := 1, latest_seen := some 0,
                         antenna_gain_dbi := none, tx_power_dbm := none,
                         hardware_model := none }],
            min_value := some (-70), max_value := some (-50) } := by
  norm_num [get_heatmap, httpMetricOk, hoursParamOk, pingSampleColumns,
    runAggQuery, filteredRows, passesFilters, keysInOrder, insertKey, rowKey,
    groupRows, aggRowFor, sqlAvg, sqlMaxStr, metricValueOf, heatmapEnvelope,
    build_heatmap_points, toHeatmapPoint, scenarioStore, mkSample,
    List.filter, List.foldl, List.filterMap, List.map, List.min?, List.max?]

/-- C8: bulk ingestion of an empty list fails with HTTP 400 before any
write, leaving the store unchanged. -/
theorem C8_empty_bulk_rejected (now : ℚ) (store : List PingSample) :
    (create_ping_samples now store []).1 = store ∧
    (create_ping_samples now store []).2 =
      .error (.httpException 400 "No samples provided.") := by
  constructor <;> rfl

/-- C2 counterexample: latitude is a mapped column of the PingSample
class, so the CLI guard `getattr(PingSample, "latitude", None)` succeeds
even though latitude is outside the supported metric set, and the
post-guard export body runs the aggregation to completion and renders
instead of failing validation. -/
theorem C2_cli_accepts_latitude :
    ("latitude" ∈ pingSampleColumns) ∧
    export_heatmap_run "latitude" none none none "hm.html" 0 cliLatStore =
      .ok ({ center_lat := 5, center_lon := 6,
             heat_data := [(5, 6, 5)],
             marker_locations := [(5, 6)] }, "hm.html") := by
  constructor
  · decide
  norm_num [export_heatmap_run, pingSampleColumns, runAggQuery, filteredRows,
    passesFilters, keysInOrder, insertKey, rowKey, groupRows, aggRowFor,
    sqlAvg, sqlMaxStr, metricValueOf, build_heatmap_points, toHeatmapPoint,
    render_heatmap_html, cliLatStore, mkSample, List.filter, List.foldl,
    List.filterMap, List.map]

/-- C2 amended: a metric name outside the supported set is rejected by
the HTTP endpoint with a validation error before any query executes; the
CLI export fails its metric validation exactly when the getattr lookup
on the PingSample class finds no attribute of that name, and since every
mapped column is a class attribute, a column name such as latitude
passes the guard and the aggregation executes. -/
theorem C2_amended_metric_validation (metric : String)
    (hm : metric ∉ (["rssi_dbm", "snr_db", "round_trip_ms"] : List String))
    (hours : Option Int) (hw ant : Option String) (path : String) (now : ℚ)
    (store : List PingSample) (attrFound : String → Bool)
    (hattrs : attrsComplete attrFound) :
    get_heatmap metric hours hw ant now store = .error .requestValidation ∧
    (attrFound metric = false →
      export_heatmap attrFound metric hours hw ant path now store =
        .error (.exit 1 ("Unsupported metric: " ++ metric))) ∧
    (metric ∈ pingSampleColumns →
      export_heatmap attrFound metric hours hw ant path now store =
        export_heatmap_run metric hours hw ant path now store) := by
  have h1 : metric ≠ "rssi_dbm" := by intro h; exact hm (by simp [h])
  have h2 : metric ≠ "snr_db" := by intro h; exact hm (by simp [h])
  have h3 : metric ≠ "round_trip_ms" := by intro h; exact hm (by simp [h])
  refine ⟨?_, ?_, ?_⟩
  · simp [get_heatmap, httpMetricOk, h1, h2, h3]
  · intro hguard
    unfold export_heatmap
    rw [hguard]
    simp
  · intro hcolmem
    have hguard : attrFound metric = true := hattrs metric hcolmem
    unfold export_heatmap
    rw [hguard]
    simp

/-- C2 amended witness: at the column metric name latitude, the HTTP
endpoint rejects while the CLI guard accepts and runs the aggregation
body. -/
theorem C2_amended_metric_validation_witness :
    ("latitude" ∉ (["rssi_dbm", "snr_db", "round_trip_ms"] : List String)) ∧
    attrsComplete columnsAttrFound ∧
    (get_heatmap "latitude" none none none 0 [] = .error .requestValidation ∧
     (columnsAttrFound "latitude" = false →
       export_heatmap columnsAttrFound "latitude" none none none "hm.html" 0 [] =
         .error (.exit 1 ("Unsupported metric: " ++ "latitude"))) ∧
     ("latitude" ∈ pingSampleColumns →
       export_heatmap columnsAttrFound "latitude" none none none "hm.html" 0 [] =
         export_heatmap_run "latitude" none none none "hm.html" 0 [])) :=
  ⟨by decide, by unfold attrsComplete columnsAttrFound; decide,
   C2_amended_metric_validation "latitude" (by decide) none none none
     "hm.html" 0 [] columnsAttrFound
     (by unfold attrsComplete columnsAttrFound; decide)⟩

/-- C3 counterexample: the CLI export does not reject an hours value of
200, which is outside [1, 168]: rssi_dbm passes the metric guard (it is
a mapped column) and the post-guard body applies the cutoff and
succeeds. -/
theorem C3_cli_accepts_hours_200 :
    ("rssi_dbm" ∈ pingSampleColumns) ∧
    export_heatmap_run "rssi_dbm" (some 200) none none "hm.html" 1000
        [lateSample] =
      .ok ({ center_lat := 1, center_lon := 2,
             heat_data := [(1, 2, -60)],
             marker_locations := [(1, 2)] }, "hm.html") := by
  constructor
  · decide
  norm_num [export_heatmap_run, pingSampleColumns, runAggQuery, filteredRows,
    passesFilters, keysInOrder, insertKey, rowKey, groupRows, aggRowFor,
    sqlAvg, sqlMaxStr, metricValueOf, build_heatmap_points, toHeatmapPoint,
    render_heatmap_html, lateSample, mkSample, List.filter, List.foldl,
    List.filterMap, List.map]
  simp

/-- C3 amended: the HTTP endpoint rejects an hours value outside [1, 168]
with a validation error; the CLI export applies no bounds check to hours;
when hours is omitted, neither surface applies a time-window filter (the
result does not depend on the current time). -/
theorem C3_amended_hours_validation (h : Int) (hout : h < 1 ∨ 168 < h)
    (metric : String) (hw ant : Option String) (path : String)
    (now now' : ℚ) (store : List PingSample)
    (attrFound : String → Bool) :
    get_heatmap metric (some h) hw ant now store = .error .requestValidation ∧
    get_heatmap metric none hw ant now store =
      get_heatmap metric none hw ant now' store ∧
    export_heatmap attrFound metric none hw ant path now store =
      export_heatmap attrFound metric none hw ant path now' store := by
  have hfail : hoursParamOk (some h) = false := by
    unfold hoursParamOk
    rcases hout with h1 | h1 <;> simp <;> omega
  have hq : ∀ mv store2, runAggQuery mv none hw ant now store2 =
      runAggQuery mv none hw ant now' store2 :=
    fun mv store2 => runAggQuery_congr (passesFilters_none_time hw ant now now') mv store2
  refine ⟨?_, ?_, ?_⟩
  · simp [get_heatmap, hfail]
  · unfold get_heatmap
    rw [hq]
  · unfold export_heatmap export_heatmap_run
    rw [hq]

/-- C3 amended witness: hours 200 is rejected by the HTTP endpoint, and
an omitted hours value gives a time-independent result. -/
theorem C3_amended_hours_validation_witness :
    ((200 : Int) < 1 ∨ (168 : Int) < 200) ∧
    (get_heatmap "rssi_dbm" (some 200) none none 0 [] =
        .error .requestValidation ∧
      get_heatmap "rssi_dbm" none none none 0 [] =
        get_heatmap "rssi_dbm" none none none 1 [] ∧
      export_heatmap columnsAttrFound "rssi_dbm" none none none "hm.html" 0 [] =
        export_heatmap columnsAttrFound "rssi_dbm" none none none "hm.html" 1 []) :=
  ⟨by decide,
   C3_amended_hours_validation 200 (by decide) "rssi_dbm" none none "hm.html"
     0 1 [] columnsAttrFound⟩

/-- C10 counterexample: in the HTTP endpoint an hours value of 0 is not
treated like an omitted hours parameter: the request is rejected by
parameter validation instead. -/
theorem C10_http_hours_zero_rejected :
    get_heatmap "rssi_dbm" (some 0) none none 0 [] ≠
      get_heatmap "rssi_dbm" none none none 0 [] := by
  decide

/-- C10 amended: falsy filter values are treated as omitted wherever they
reach the handler: the CLI treats hours 0 and empty hardware_model or
antenna_model strings as absent, and the HTTP endpoint treats empty
hardware_model or antenna_model strings as absent; but an HTTP hours
value of 0 is rejected by parameter validation before the handler
runs. -/
theorem C10_amended_falsy_filters (metric : String) (hours : Option Int)
    (hw ant : Option String) (path : String) (now : ℚ)
    (store : List PingSample) (attrFound : String → Bool) :
    export_heatmap attrFound metric (some 0) hw ant path now store =
      export_heatmap attrFound metric none hw ant path now store ∧
    export_heatmap attrFound metric hours (some "") ant path now store =
      export_heatmap attrFound metric hours none ant path now store ∧
    export_heatmap attrFound metric hours hw (some "") path now store =
      export_heatmap attrFound metric hours hw none path now store ∧
    get_heatmap metric hours (some "") ant now store =
      get_heatmap metric hours none ant now store ∧
    get_heatmap metric hours hw (some "") now store =
      get_heatmap metric hours hw none now store ∧
    get_heatmap metric (some 0) hw ant now store =
      .error .requestValidation := by
  refine ⟨?_, ?_, ?_, ?_, ?_, ?_⟩
  · unfold export_heatmap export_heatmap_run
    rw [runAggQuery_congr (passesFilters_hours_zero hw ant now)]
  · unfold export_heatmap export_heatmap_run
    rw [runAggQuery_congr (passesFilters_hw_empty hours ant now)]
  · unfold export_heatmap export_heatmap_run
    rw [runAggQuery_congr (passesFilters_ant_empty hours hw now)]
  · unfold get_heatmap
    rw [runAggQuery_congr (passesFilters_hw_empty hours ant now)]
  · unfold get_heatmap
    rw [runAggQuery_congr (passesFilters_ant_empty hours hw now)]
  · simp [get_heatmap, hoursParamOk]

/-- Appending a sample that fails the row predicate leaves the
aggregation result unchanged. -/
theorem runAggQuery_append_unfiltered {hours : Option Int}
    {hw ant : Option String} {now : ℚ} {r : PingSample}
    (h : passesFilters hours hw ant now r = false)
    (mv : PingSample → Option ℚ) (store : List PingSample) :
    runAggQuery mv hours hw ant now (store ++ [r]) =
      runAggQuery mv hours hw ant now store := by
  unfold runAggQuery filteredRows
  rw [List.filter_append]
  simp [List.filter_cons, h]

/-- C4: a validated sample whose latitude or longitude is null is
persisted by the ingestion endpoint but never contributes to any
aggregated heatmap point: for every metric and filter combination, both
the HTTP heatmap query and the CLI export give the same result with and
without the sample. -/
theorem C4_null_coords_stored_not_aggregated (now t : ℚ)
    (store : List PingSample) (s : PingSampleIn)
    (hnull : s.latitude = none ∨ s.longitude = none)
    (metric : String) (hours : Option Int) (hw ant : Option String)
    (path : String) (attrFound : String → Bool) :
    (create_ping_sample now store s).2 ∈ (create_ping_sample now store s).1 ∧
    get_heatmap metric hours hw ant t (create_ping_sample now store s).1 =
      get_heatmap metric hours hw ant t store ∧
    export_heatmap attrFound metric hours hw ant path t
        (create_ping_sample now store s).1 =
      export_heatmap attrFound metric hours hw ant path t store := by
  have hrec : passesFilters hours hw ant t (toRecord (store.length + 1) now s) = false := by
    rcases hnull with h | h <;> simp [toRecord, passesFilters, h]
  refine ⟨?_, ?_, ?_⟩
  · simp [create_ping_sample]
  · show get_heatmap metric hours hw ant t
        (store ++ [toRecord (store.length + 1) now s]) = _
    unfold get_heatmap
    rw [runAggQuery_append_unfiltered hrec]
  · show export_heatmap attrFound metric hours hw ant path t
        (store ++ [toRecord (store.length + 1) now s]) = _
    unfold export_heatmap export_heatmap_run
    rw [runAggQuery_append_unfiltered hrec]

/-- C4 witness: the null-latitude fixture is stored and leaves the
rssi_dbm heatmap of the empty store unchanged. -/
theorem C4_null_coords_stored_not_aggregated_witness :
    (nullCoordSample.latitude = none ∨ nullCoordSample.longitude = none) ∧
    ((create_ping_sample 0 [] nullCoordSample).2 ∈
        (create_ping_sample 0 [] nullCoordSample).1 ∧
      get_heatmap "rssi_dbm" none none none 0
          (create_ping_sample 0 [] nullCoordSample).1 =
        get_heatmap "rssi_dbm" none none none 0 [] ∧
      export_heatmap columnsAttrFound "rssi_dbm" none none none "hm.html" 0
          (create_ping_sample 0 [] nullCoordSample).1 =
        export_heatmap columnsAttrFound "rssi_dbm" none none none "hm.html" 0 []) :=
  ⟨Or.inl rfl,
   C4_null_coords_stored_not_aggregated 0 0 [] nullCoordSample (Or.inl rfl)
     "rssi_dbm" none none none "hm.html" columnsAttrFound⟩

/-- C6: rendering the HTML heatmap with an empty point set always fails
with the empty-dataset ValueError (raised before any file is written,
so the error value carries no rendered artifact), while the JSON heatmap
path on an empty aggregation result returns the well-formed envelope
with an empty point list and null min_value and max_value. -/
theorem C6_empty_render_asymmetry (path metric : String) :
    render_heatmap_html [] path metric =
      .error "No heatmap points available to render." ∧
    (∀ (hours : Option Int) (hw ant : Option String) (now : ℚ)
       (store : List PingSample),
       httpMetricOk metric = true → hoursParamOk hours = true →
       heatmapPoints metric hours hw ant now store = [] →
       get_heatmap metric hours hw ant now store =
         .ok { metric := metric, points := [],
               min_value := none, max_value := none }) := by
  constructor
  · rfl
  · intro hours hw ant now store hmet hh hpts
    have hmem : metric = "rssi_dbm" ∨ metric = "snr_db" ∨
        metric = "round_trip_ms" := by
      have h := hmet
      unfold httpMetricOk at h
      simp at h
      tauto
    have hcol : metric ∈ pingSampleColumns := by
      rcases hmem with rfl | rfl | rfl <;> decide
    have hb : build_heatmap_points
        (runAggQuery (metricValueOf metric) hours hw ant now store) metric =
        [] := hpts
    simp [get_heatmap, hmet, hh, hcol, hb, heatmapEnvelope]

/-- C6 witness: on the empty store with metric rssi_dbm the JSON path
returns the empty envelope while the HTML renderer errors. -/
theorem C6_empty_render_asymmetry_witness :
    (render_heatmap_html [] "hm.html" "rssi_dbm" =
        .error "No heatmap points available to render.") ∧
    (httpMetricOk "rssi_dbm" = true ∧ hoursParamOk none = true ∧
      heatmapPoints "rssi_dbm" none none none 0 [] = [] ∧
      get_heatmap "rssi_dbm" none none none 0 [] =
        .ok { metric := "rssi_dbm", points := [],
              min_value := none, max_value := none }) :=
  ⟨(C6_empty_render_asymmetry "hm.html" "rssi_dbm").1,
   by decide, by decide, by decide,
   (C6_empty_render_asymmetry "hm.html" "rssi_dbm").2 none none none 0 []
     (by decide) (by decide) (by decide)⟩

/-- A successful heatmap request returns exactly the envelope built from
the pipeline point list. -/
theorem get_heatmap_ok {metric : String} {hours : Option Int}
    {hw ant : Option String} {now : ℚ} {store : List PingSample}
    {resp : HeatmapResponse}
    (h : get_heatmap metric hours hw ant now store = .ok resp) :
    resp = heatmapEnvelope metric (heatmapPoints metric hours hw ant now store) := by
  unfold get_heatmap at h
  split at h
  · simp at h
  split at h
  · simp at h
  cases h
  rfl

/-- C9: in every successful JSON heatmap response, an empty point list
comes with null min_value and max_value, and a non-empty point list
comes with min_value equal to the least intensity and max_value equal to
the greatest intensity, both attained by some returned point, so every
returned intensity lies between them. -/
theorem C9_envelope_minmax (metric : String) (hours : Option Int)
    (hw ant : Option String) (now : ℚ) (store : List PingSample)
    (resp : HeatmapResponse)
    (h : get_heatmap metric hours hw ant now store = .ok resp) :
    (resp.points = [] → resp.min_value = none ∧ resp.max_value = none) ∧
    (resp.points ≠ [] → ∃ mn mx : ℚ,
      resp.min_value = some mn ∧ resp.max_value = some mx ∧
      (∀ p ∈ resp.points, mn ≤ p.intensity ∧ p.intensity ≤ mx) ∧
      (∃ p ∈ resp.points, p.intensity = mn) ∧
      (∃ p ∈ resp.points, p.intensity = mx)) := by
  obtain rfl := get_heatmap_ok h
  unfold heatmapEnvelope
  by_cases he : (heatmapPoints metric hours hw ant now store).isEmpty
  · simp [he]
  · rw [if_neg he]
    have hne : heatmapPoints metric hours hw ant now store ≠ [] := by
      simpa [List.isEmpty_iff] using he
    constructor
    · intro hc
      exact absurd hc hne
    · intro _
      have hmapne :
          (heatmapPoints metric hours hw ant now store).map
            (fun p => p.intensity) ≠ [] := by
        simpa using hne
      rcases hmn : ((heatmapPoints metric hours hw ant now store).map
          (fun p => p.intensity)).min? with _ | mn
      · exact absurd (List.min?_eq_none_iff.mp hmn) hmapne
      rcases hmx : ((heatmapPoints metric hours hw ant now store).map
          (fun p => p.intensity)).max? with _ | mx
      · exact absurd (List.max?_eq_none_iff.mp hmx) hmapne
      refine ⟨mn, mx, by simpa using hmn, by simpa using hmx, ?_, ?_, ?_⟩
      · intro p hp
        constructor
        · have hle := (List.le_min?_iff
            (fun a b c => le_min_iff) hmn (x := mn)).mp le_rfl
          exact hle _ (List.mem_map_of_mem _ hp)
        · have hle := (List.max?_le_iff
            (fun a b c => max_le_iff) hmx (x := mx)).mp le_rfl
          exact hle _ (List.mem_map_of_mem _ hp)
      · have hmem := List.min?_mem (fun a b => min_choice a b) hmn
        rcases List.mem_map.mp hmem with ⟨p, hp, hpe⟩
        exact ⟨p, hp, hpe⟩
      · have hmem := List.max?_mem (fun a b => max_choice a b) hmx
        rcases List.mem_map.mp hmem with ⟨p, hp, hpe⟩
        exact ⟨p, hp, hpe⟩

/-- C9 witness: the empty-store response has empty points and null
min and max. -/
theorem C9_envelope_minmax_witness :
    (get_heatmap "rssi_dbm" none none none 0 [] =
        .ok { metric := "rssi_dbm", points := [],
              min_value := none, max_value := none }) ∧
    (({ metric := "rssi_dbm", points := [], min_value := none,
        max_value := none } : HeatmapResponse).points = [] →
      ({ metric := "rssi_dbm", points := [], min_value := none,
         max_value := none } : HeatmapResponse).min_value = none ∧
      ({ metric := "rssi_dbm", points := [], min_value := none,
         max_value := none } : HeatmapResponse).max_value = none) :=
  ⟨by decide,
   (C9_envelope_minmax "rssi_dbm" none none none 0 []
     { metric := "rssi_dbm", points := [], min_value := none,
       max_value := none } (by decide)).1⟩

/-- C7 counterexample: the ingestion surface accepts a payload whose node
identifiers are present but empty strings, so non-emptiness of the node
identifiers is not enforced. -/
theorem C7_empty_node_id_accepted :
    validatePingSampleIn emptyIdRaw = some parsedEmptyId ∧
    parsedEmptyId.origin_node_id = "" ∧
    parsedEmptyId.target_node_id = "" := by
  refine ⟨rfl, rfl, rfl⟩

/-- C7 amended: every sample accepted through ingestion validation has a
present (possibly empty) origin node identifier and a present (possibly
empty) target node identifier, and its latitude lies in [-90, 90] and
its longitude in [-180, 180] whenever present; validation rejects any
input with a missing node identifier or an out-of-bounds coordinate. -/
theorem C7_amended_presence_and_bounds (raw : PingSampleInRaw) :
    (∀ s : PingSampleIn, validatePingSampleIn raw = some s →
      raw.origin_node_id = some s.origin_node_id ∧
      raw.target_node_id = some s.target_node_id ∧
      (∀ la ∈ s.latitude, -90 ≤ la ∧ la ≤ 90) ∧
      (∀ lo ∈ s.longitude, -180 ≤ lo ∧ lo ≤ 180)) ∧
    ((raw.origin_node_id = none ∨ raw.target_node_id = none ∨
      (∃ la ∈ raw.latitude, la < -90 ∨ 90 < la) ∨
      (∃ lo ∈ raw.longitude, lo < -180 ∨ 180 < lo)) →
      validatePingSampleIn raw = none) := by
  rcases ho : raw.origin_node_id with _ | o
  · constructor
    · intro s hs
      simp [validatePingSampleIn, ho] at hs
    · intro _
      simp [validatePingSampleIn, ho]
  rcases ht : raw.target_node_id with _ | t
  · constructor
    · intro s hs
      simp [validatePingSampleIn, ho, ht] at hs
    · intro _
      simp [validatePingSampleIn, ho, ht]
  constructor
  · intro s hs
    simp only [validatePingSampleIn, ho, ht] at hs
    split at hs
    · rename_i hcond
      rw [Bool.and_eq_true] at hcond
      obtain ⟨hlat, hlon⟩ := hcond
      obtain rfl : _ = s := Option.some.inj hs
      refine ⟨rfl, rfl, ?_, ?_⟩
      · intro la hla
        simp only [Option.mem_def] at hla
        rw [show raw.latitude = some la from hla] at hlat
        simpa using hlat
      · intro lo hlo
        simp only [Option.mem_def] at hlo
        rw [show raw.longitude = some lo from hlo] at hlon
        simpa using hlon
    · exact absurd hs (by simp)
  · intro hviol
    rcases hviol with h | h | h | h
    · simp [ho] at h
    · simp [ht] at h
    · obtain ⟨la, hla, hbad⟩ := h
      rw [Option.mem_def] at hla
      have hfalse : (match raw.latitude with
          | some la => decide (-90 ≤ la) && decide (la ≤ 90)
          | none => true) = false := by
        rw [hla]
        rcases hbad with hb | hb
        · have hn : ¬ (-90 ≤ la) := not_le.mpr hb
          simp [hn]
        · have hn : ¬ (la ≤ 90) := not_le.mpr hb
          simp [hn]
      unfold validatePingSampleIn
      rw [ho, ht, hfalse]
      simp
    · obtain ⟨lo, hlo, hbad⟩ := h
      rw [Option.mem_def] at hlo
      have hfalse : (match raw.longitude with
          | some lo => decide (-180 ≤ lo) && decide (lo ≤ 180)
          | none => true) = false := by
        rw [hlo]
        rcases hbad with hb | hb
        · have hn : ¬ (-180 ≤ lo) := not_le.mpr hb
          simp [hn]
        · have hn : ¬ (lo ≤ 180) := not_le.mpr hb
          simp [hn]
      unfold validatePingSampleIn
      rw [ho, ht, hfalse]
      simp

/-- C7 amended witness: instantiation at the out-of-bounds latitude
fixture, whose latitude 100 makes validation return none. -/
theorem C7_amended_presence_and_bounds_witness :
    (∀ s : PingSampleIn, validatePingSampleIn badLatRaw = some s →
      badLatRaw.origin_node_id = some s.origin_node_id ∧
      badLatRaw.target_node_id = some s.target_node_id ∧
      (∀ la ∈ s.latitude, -90 ≤ la ∧ la ≤ 90) ∧
      (∀ lo ∈ s.longitude, -180 ≤ lo ∧ lo ≤ 180)) ∧
    ((badLatRaw.origin_node_id = none ∨ badLatRaw.target_node_id = none ∨
      (∃ la ∈ badLatRaw.latitude, la < -90 ∨ 90 < la) ∨
      (∃ lo ∈ badLatRaw.longitude, lo < -180 ∨ 180 < lo)) →
      validatePingSampleIn badLatRaw = none) :=
  C7_amended_presence_and_bounds badLatRaw

/-- Membership in the seen-key accumulator. -/
theorem mem_insertKey {ks : List (Option ℚ × Option ℚ)}
    {k0 k : Option ℚ × Option ℚ} :
    k ∈ insertKey ks k0 ↔ k ∈ ks ∨ k = k0 := by
  unfold insertKey
  split
  · rename_i hmem
    constructor
    · exact Or.inl
    · rintro (hk | rfl)
      · exact hk
      · exact hmem
  · simp

/-- Membership in the key fold, generalized over the accumulator. -/
theorem mem_foldl_insert (rows : List PingSample)
    (init : List (Option ℚ × Option ℚ)) (k : Option ℚ × Option ℚ) :
    (k ∈ rows.foldl (fun ks s => insertKey ks (rowKey s)) init) ↔
      k ∈ init ∨ ∃ s ∈ rows, rowKey s = k := by
  induction rows generalizing init with
  | nil => simp
  | cons a rows ih =>
    rw [List.foldl_cons, ih]
    simp only [mem_insertKey, List.mem_cons]
    constructor
    · rintro ((hk | rfl) | ⟨s, hs, rfl⟩)
      · exact Or.inl hk
      · exact Or.inr ⟨a, Or.inl rfl, rfl⟩
      · exact Or.inr ⟨s, Or.inr hs, rfl⟩
    · rintro (hk | ⟨s, (rfl | hs), rfl⟩)
      · exact Or.inl (Or.inl hk)
      · exact Or.inl (Or.inr rfl)
      · exact Or.inr ⟨s, hs, rfl⟩

/-- A key is grouped over exactly when some filtered row carries it. -/
theorem mem_keysInOrder {rows : List PingSample} {k : Option ℚ × Option ℚ} :
    k ∈ keysInOrder rows ↔ ∃ s ∈ rows, rowKey s = k := by
  unfold keysInOrder
  rw [mem_foldl_insert]
  simp

/-- A point is in the pipeline output exactly when it is the conversion
of the aggregate row of some grouped key. -/
theorem mem_heatmapPoints {metric : String} {hours : Option Int}
    {hw ant : Option String} {now : ℚ} {store : List PingSample}
    {p : HeatmapPoint} :
    p ∈ heatmapPoints metric hours hw ant now store ↔
      ∃ k ∈ keysInOrder (filteredRows hours hw ant now store),
        toHeatmapPoint (aggRowFor (metricValueOf metric) k
          (groupRows (filteredRows hours hw ant now store) k)) = some p := by
  unfold heatmapPoints build_heatmap_points runAggQuery
  simp only [List.mem_filterMap, List.mem_map]
  constructor
  · rintro ⟨r, ⟨k, hk, rfl⟩, hr⟩
    exact ⟨k, hk, hr⟩
  · rintro ⟨k, hk, hr⟩
    exact ⟨_, ⟨k, hk, rfl⟩, hr⟩

/-- Inversion of the point conversion: a converted row has the point
coordinates and intensity as its non-null columns, and the samples field
is the guarded count. -/
theorem toHeatmapPoint_some_inv {r : AggRow} {p : HeatmapPoint}
    (h : toHeatmapPoint r = some p) :
    r.latitude = some p.latitude ∧ r.longitude = some p.longitude ∧
    r.metric_value = some p.intensity ∧
    p.samples = if r.sample_count = 0 then 1 else r.sample_count := by
  rcases hla : r.latitude with _ | la
  · simp [toHeatmapPoint, hla] at h
  rcases hlo : r.longitude with _ | lo
  · simp [toHeatmapPoint, hla, hlo] at h
  rcases hmv : r.metric_value with _ | mv
  · simp [toHeatmapPoint, hla, hlo, hmv] at h
  simp only [toHeatmapPoint, hla, hlo, hmv] at h
  obtain rfl : _ = p := Option.some.inj h
  exact ⟨rfl, rfl, rfl, rfl⟩

/-- C5: for every group of stored samples sharing an exact coordinate
pair and passing the active filters, if every group member has a null
metric value then no point at those coordinates is returned, and
otherwise exactly the point whose intensity is the arithmetic mean of
the non-null metric values and whose samples count is the size of the
group is returned at those coordinates. -/
theorem C5_group_mean_and_count (metric : String) (hours : Option Int)
    (hw ant : Option String) (now lat lon : ℚ) (store : List PingSample)
    (hg : groupAt hours hw ant now store lat lon ≠ []) :
    (nonNullValues metric (groupAt hours hw ant now store lat lon) = [] →
      ∀ p ∈ heatmapPoints metric hours hw ant now store,
        ¬(p.latitude = lat ∧ p.longitude = lon)) ∧
    (nonNullValues metric (groupAt hours hw ant now store lat lon) ≠ [] →
      (∃ p ∈ heatmapPoints metric hours hw ant now store,
        p.latitude = lat ∧ p.longitude = lon ∧
        p.intensity =
          (nonNullValues metric (groupAt hours hw ant now store lat lon)).sum /
          ((nonNullValues metric (groupAt hours hw ant now store lat lon)).length : ℚ) ∧
        p.samples = (groupAt hours hw ant now store lat lon).length) ∧
      (∀ p ∈ heatmapPoints metric hours hw ant now store,
        p.latitude = lat → p.longitude = lon →
        p.intensity =
          (nonNullValues metric (groupAt hours hw ant now store lat lon)).sum /
          ((nonNullValues metric (groupAt hours hw ant now store lat lon)).length : ℚ) ∧
        p.samples = (groupAt hours hw ant now store lat lon).length)) := by
  have hkey : ∀ p ∈ heatmapPoints metric hours hw ant now store,
      p.latitude = lat → p.longitude = lon →
      toHeatmapPoint (aggRowFor (metricValueOf metric) (some lat, some lon)
        (groupAt hours hw ant now store lat lon)) = some p := by
    intro p hp hplat hplon
    rcases mem_heatmapPoints.mp hp with ⟨k, hk, hr⟩
    obtain ⟨h1, h2, _, _⟩ := toHeatmapPoint_some_inv hr
    simp only [aggRowFor] at h1 h2
    have hkk : k = (some lat, some lon) := by
      calc k = (k.1, k.2) := rfl
        _ = (some lat, some lon) := by rw [h1, h2, hplat, hplon]
    rw [hkk] at hr
    exact hr
  have hnone : nonNullValues metric (groupAt hours hw ant now store lat lon) = [] →
      sqlAvg ((groupAt hours hw ant now store lat lon).map (metricValueOf metric)) =
        none := by
    intro hnn
    have hall : ∀ x ∈ groupAt hours hw ant now store lat lon,
        metricValueOf metric x = none := by
      intro x hx
      rcases hv : metricValueOf metric x with _ | v
      · rfl
      exfalso
      have hvmem : v ∈ nonNullValues metric (groupAt hours hw ant now store lat lon) := by
        unfold nonNullValues
        rw [List.mem_filterMap]
        exact ⟨some v, hv ▸ List.mem_map_of_mem (metricValueOf metric) hx, rfl⟩
      rw [hnn] at hvmem
      exact absurd hvmem (List.not_mem_nil v)
    simp [sqlAvg]
    exact hall
  have hmean : nonNullValues metric (groupAt hours hw ant now store lat lon) ≠ [] →
      sqlAvg ((groupAt hours hw ant now store lat lon).map (metricValueOf metric)) =
        some ((nonNullValues metric (groupAt hours hw ant now store lat lon)).sum /
          ((nonNullValues metric (groupAt hours hw ant now store lat lon)).length : ℚ)) := by
    intro hnn
    obtain ⟨v, hv⟩ := List.exists_mem_of_ne_nil _ hnn
    have hv2 := hv
    unfold nonNullValues at hv2
    rw [List.mem_filterMap] at hv2
    obtain ⟨a, ha, hav⟩ := hv2
    rw [List.mem_map] at ha
    obtain ⟨x, hx, rfl⟩ := ha
    simp only [id] at hav
    simp [sqlAvg, nonNullValues]
    exact ⟨x, hx, by simp [hav]⟩
  have hgne0 : (groupAt hours hw ant now store lat lon).length ≠ 0 := by
    simpa [List.length_eq_zero] using hg
  constructor
  · intro hnn p hp hpc
    obtain ⟨hplat, hplon⟩ := hpc
    obtain ⟨_, _, h3, _⟩ := toHeatmapPoint_some_inv (hkey p hp hplat hplon)
    simp only [aggRowFor] at h3
    rw [hnone hnn] at h3
    exact absurd h3 (by simp)
  · intro hnn
    obtain ⟨s, hsg⟩ := List.exists_mem_of_ne_nil _ hg
    have hs2 : s ∈ filteredRows hours hw ant now store ∧
        rowKey s = (some lat, some lon) := by
      simpa [groupAt, groupRows, List.mem_filter] using hsg
    have hkmem : (some lat, some lon) ∈
        keysInOrder (filteredRows hours hw ant now store) :=
      mem_keysInOrder.mpr ⟨s, hs2.1, hs2.2⟩
    have hpoint : toHeatmapPoint (aggRowFor (metricValueOf metric)
        (some lat, some lon) (groupAt hours hw ant now store lat lon)) =
        some { latitude := lat, longitude := lon,
               intensity :=
                 (nonNullValues metric (groupAt hours hw ant now store lat lon)).sum /
                 ((nonNullValues metric (groupAt hours hw ant now store lat lon)).length : ℚ),
               samples := (groupAt hours hw ant now store lat lon).length,
               latest_seen := ((groupAt hours hw ant now store lat lon).map
                 (fun s => s.created_at)).max?,
               antenna_gain_dbi := sqlAvg ((groupAt hours hw ant now store lat lon).map
                 (fun s => s.antenna_gain_dbi)),
               tx_power_dbm := sqlAvg ((groupAt hours hw ant now store lat lon).map
                 (fun s => s.tx_power_dbm)),
               hardware_model := sqlMaxStr ((groupAt hours hw ant now store lat lon).map
                 (fun s => s.hardware_model)) } := by
      simp only [toHeatmapPoint, aggRowFor, hmean hnn]
      simp [hgne0]
    constructor
    · exact ⟨_, mem_heatmapPoints.mpr ⟨(some lat, some lon), hkmem, hpoint⟩,
        rfl, rfl, rfl, rfl⟩
    · intro p hp hplat hplon
      obtain ⟨_, _, h3, h4⟩ := toHeatmapPoint_some_inv (hkey p hp hplat hplon)
      simp only [aggRowFor] at h3 h4
      rw [hmean hnn] at h3
      refine ⟨(Option.some.inj h3).symm, ?_⟩
      rw [h4, if_neg hgne0]

/-- C5 witness: in the four-sample scenario the group at (1, 2) has
non-null values -60, -70, -80 and yields the point with their mean and
samples 3. -/
theorem C5_group_mean_and_count_witness :
    groupAt none none none 0 scenarioStore 1 2 ≠ [] ∧
    ((nonNullValues "rssi_dbm" (groupAt none none none 0 scenarioStore 1 2) = [] →
      ∀ p ∈ heatmapPoints "rssi_dbm" none none none 0 scenarioStore,
        ¬(p.latitude = 1 ∧ p.longitude = 2)) ∧
    (nonNullValues "rssi_dbm" (groupAt none none none 0 scenarioStore 1 2) ≠ [] →
      (∃ p ∈ heatmapPoints "rssi_dbm" none none none 0 scenarioStore,
        p.latitude = 1 ∧ p.longitude = 2 ∧
        p.intensity =
          (nonNullValues "rssi_dbm" (groupAt none none none 0 scenarioStore 1 2)).sum /
          ((nonNullValues "rssi_dbm" (groupAt none none none 0 scenarioStore 1 2)).length : ℚ) ∧
        p.samples = (groupAt none none none 0 scenarioStore 1 2).length) ∧
      (∀ p ∈ heatmapPoints "rssi_dbm" none none none 0 scenarioStore,
        p.latitude = 1 → p.longitude = 2 →
        p.intensity =
          (nonNullValues "rssi_dbm" (groupAt none none none 0 scenarioStore 1 2)).sum /
          ((nonNullValues "rssi_dbm" (groupAt none none none 0 scenarioStore 1 2)).length : ℚ) ∧
        p.samples = (groupAt none none none 0 scenarioStore 1 2).length))) :=
  ⟨by decide,
   C5_group_mean_and_count "rssi_dbm" none none none 0 1 2 scenarioStore
     (by decide)⟩

end MeshcoreHeatmap
